import Mathlib

/-!
Verification of the BearCart analytics dashboard (src/app.py,
src/streamlit_app.py, src/utils.py) against its specification.

The dashboard is a one-shot, in-memory pandas computation. We embed the
data frame as a list of rows (`Event`), in source order, and transliterate
each pandas expression into a Lean function on that list.

Numeric columns are embedded as rationals. Pandas float division by zero
produces a non-finite value (NaN or infinity) instead of raising; we model
a possibly-non-finite float as `Option Rat`, with `none` standing for the
non-finite outcomes. Python division of two plain ints, by contrast,
raises ZeroDivisionError on a zero denominator; we model that raised
exception as `Except.error`.
-/

/-- Calendar timestamp of the created_at column. Only the calendar fields
matter for the computations under verification (month bucketing and
chronological comparison). -/
structure Date where
  year : Nat
  month : Nat
  day : Nat
deriving DecidableEq

/-- One row of the raw dataset (one Event of the spec's data model). -/
structure Event where
  website_session_id : Nat
  order_id : Nat
  created_at : Date
  is_conversion : Nat
  price_usd : Rat
  refund_amount_usd : Rat
  is_refunded : Bool
  items_purchased : Int
  product_id : Nat
  product_name : String
deriving DecidableEq

/-- Division as the dashboard's floats perform it: dividing by zero yields
a non-finite value (NaN for 0/0, signed infinity otherwise), which we model
as `none`; any other division is exact. -/
def fdiv (a b : Rat) : Option Rat := if b = 0 then none else some (a / b)

/-- Embedding of pandas drop_duplicates(subset=key) with keep="first":
walk the list in source order, keeping a row only when its key has not
been seen before. -/
def dropDups {α β : Type} [DecidableEq β] (key : α → β) (seen : List β) :
    List α → List α
  | [] => []
  | x :: xs =>
    if key x ∈ seen then dropDups key seen xs
    else x :: dropDups key (key x :: seen) xs

theorem dropDups_sublist {α β : Type} [DecidableEq β] (key : α → β)
    (seen : List β) (l : List α) : (dropDups key seen l).Sublist l := by
  induction l generalizing seen with
  | nil => simp [dropDups]
  | cons x xs ih =>
    by_cases hx : key x ∈ seen
    · simpa [dropDups, hx] using (ih seen).cons x
    · simpa [dropDups, hx] using (ih (key x :: seen)).cons₂ x

theorem mem_dropDups {α β : Type} [DecidableEq β] {key : α → β}
    {seen : List β} {l : List α} {e : α} (h : e ∈ dropDups key seen l) :
    e ∈ l ∧ key e ∉ seen := by
  induction l generalizing seen with
  | nil => simp [dropDups] at h
  | cons x xs ih =>
    by_cases hx : key x ∈ seen
    · rw [dropDups, if_pos hx] at h
      have := ih h
      exact ⟨List.mem_cons_of_mem _ this.1, this.2⟩
    · rw [dropDups, if_neg hx] at h
      rcases List.mem_cons.mp h with rfl | h
      · exact ⟨List.mem_cons_self _ _, hx⟩
      · have := ih h
        refine ⟨List.mem_cons_of_mem _ this.1, fun hc => this.2 ?_⟩
        exact List.mem_cons_of_mem _ hc

theorem find?_dropDups {α β : Type} [DecidableEq β] {key : α → β}
    {seen : List β} {l : List α} {e : α} (h : e ∈ dropDups key seen l) :
    l.find? (fun x => decide (key x = key e)) = some e := by
  induction l generalizing seen with
  | nil => simp [dropDups] at h
  | cons x xs ih =>
    by_cases hx : key x ∈ seen
    · rw [dropDups, if_pos hx] at h
      have hmem := mem_dropDups h
      have hne : ¬ key x = key e := fun hc => hmem.2 (hc ▸ hx)
      rw [List.find?_cons_of_neg _ (by simpa using hne)]
      exact ih h
    · rw [dropDups, if_neg hx] at h
      rcases List.mem_cons.mp h with rfl | h
      · exact List.find?_cons_of_pos _ (by simp)
      · have hmem := mem_dropDups h
        have hne : ¬ key x = key e := by
          intro hc
          exact hmem.2 (hc ▸ List.mem_cons_self _ _)
        rw [List.find?_cons_of_neg _ (by simpa using hne)]
        exact ih h

theorem nodup_map_key_dropDups {α β : Type} [DecidableEq β] (key : α → β)
    (seen : List β) (l : List α) :
    ((dropDups key seen l).map key).Nodup := by
  induction l generalizing seen with
  | nil => simp [dropDups]
  | cons x xs ih =>
    by_cases hx : key x ∈ seen
    · rw [dropDups, if_pos hx]; exact ih seen
    · rw [dropDups, if_neg hx]
      refine List.Nodup.cons ?_ (ih (key x :: seen))
      intro hc
      rcases List.mem_map.mp hc with ⟨o, ho, hko⟩
      exact (mem_dropDups ho).2 (hko ▸ List.mem_cons_self _ _)

theorem exists_key_dropDups {α β : Type} [DecidableEq β] {key : α → β}
    {seen : List β} {l : List α} {e : α} (he : e ∈ l) (hs : key e ∉ seen) :
    ∃ o, o ∈ dropDups key seen l ∧ key o = key e := by
  induction l generalizing seen with
  | nil => simp at he
  | cons x xs ih =>
    by_cases hx : key x ∈ seen
    · rw [dropDups, if_pos hx]
      rcases List.mem_cons.mp he with rfl | he
      · exact absurd hx hs
      · exact ih he hs
    · rw [dropDups, if_neg hx]
      by_cases hk : key x = key e
      · exact ⟨x, List.mem_cons_self _ _, hk⟩
      · rcases List.mem_cons.mp he with rfl | he
        · exact absurd rfl hk
        · have hs2 : key e ∉ key x :: seen := by
            intro hc
            rcases List.mem_cons.mp hc with hc | hc
            · exact hk hc.symm
            · exact hs hc
          rcases ih he hs2 with ⟨o, ho, hko⟩
          exact ⟨o, List.mem_cons_of_mem _ ho, hko⟩

namespace App

/-- Transliteration of src/app.py line 24:
orders_df = df[df["is_conversion"] == 1].drop_duplicates(subset="order_id"). -/
def orders_df (df : List Event) : List Event :=
  dropDups (fun e => e.order_id) [] (df.filter (fun e => e.is_conversion == 1))

end App

/-- Concrete single-row dataset used to instantiate hypotheses of the
proved theorems. -/
def ev1 : Event :=
  { website_session_id := 1, order_id := 10, created_at := ⟨2024, 1, 5⟩,
    is_conversion := 1, price_usd := 100, refund_amount_usd := 0,
    is_refunded := false, items_purchased := 1, product_id := 1,
    product_name := "Bear" }

/-- C1: the Order Filter returns exactly the rows whose is_conversion flag
is set, with duplicate order_id rows removed keeping the first occurrence
in source order; every order_id in the result is unique and the result has
at most as many rows as the input. -/
theorem C1_order_filter (df : List Event) :
    (∀ e ∈ App.orders_df df, e.is_conversion = 1 ∧ e ∈ df) ∧
    (∀ e ∈ df, e.is_conversion = 1 →
      ∃ o, o ∈ App.orders_df df ∧ o.order_id = e.order_id) ∧
    (∀ o ∈ App.orders_df df,
      (df.filter (fun e => e.is_conversion == 1)).find?
        (fun e => decide (e.order_id = o.order_id)) = some o) ∧
    ((App.orders_df df).map (fun e => e.order_id)).Nodup ∧
    (App.orders_df df).length ≤ df.length := by
  refine ⟨?_, ?_, ?_, ?_, ?_⟩
  · intro e he
    have hf : e ∈ df.filter (fun e => e.is_conversion == 1) :=
      (mem_dropDups he).1
    have := List.mem_filter.mp hf
    exact ⟨by simpa using this.2, this.1⟩
  · intro e he hc
    have hf : e ∈ df.filter (fun e => e.is_conversion == 1) :=
      List.mem_filter.mpr ⟨he, by simpa using hc⟩
    rcases @exists_key_dropDups Event Nat _ (fun e => e.order_id) [] _ _
      hf (by simp) with ⟨o, ho, hko⟩
    exact ⟨o, ho, hko⟩
  · intro o ho
    exact find?_dropDups ho
  · exact nodup_map_key_dropDups _ _ _
  · exact le_trans (dropDups_sublist _ _ _).length_le
      (List.length_filter_le _ _)

/-- Witness: C1_order_filter instantiated on the one-row dataset. -/
theorem C1_order_filter_witness : ev1.is_conversion = 1 ∧ ev1 ∈ [ev1] :=
  (C1_order_filter [ev1]).1 ev1 (by decide)

/-- The eight KPI scalars of the dashboard (src/app.py lines 53-60,
src/streamlit_app.py lines 105-112). -/
structure KPIs where
  total_revenue : Rat
  total_profit : Rat
  total_orders : Nat
  total_refunds : Rat
  aov : Option Rat
  total_traffic : Nat
  conversion_rate : Except String Rat
  total_items : Int

namespace App

/-- src/app.py line 53: total_revenue = orders_df["price_usd"].sum(). -/
def total_revenue (df : List Event) : Rat :=
  ((orders_df df).map (fun e => e.price_usd)).sum

/-- src/app.py line 54: total_profit = 1222335.29, a hardcoded literal. -/
def total_profit : Rat := 1222335.29

/-- src/app.py line 55: total_orders = orders_df["order_id"].nunique(). -/
def total_orders (df : List Event) : Nat :=
  ((orders_df df).map (fun e => e.order_id)).dedup.length

/-- src/app.py line 56: total_refunds = orders_df["refund_amount_usd"].sum(). -/
def total_refunds (df : List Event) : Rat :=
  ((orders_df df).map (fun e => e.refund_amount_usd)).sum

/-- src/app.py line 57: aov = total_revenue / total_orders. The numerator
is a pandas float sum, so this is float division: a zero order count
makes it silently non-finite (NaN, since the numerator is then 0.0),
modelled by none. -/
def aov (df : List Event) : Option Rat :=
  fdiv (total_revenue df) (total_orders df : Rat)

/-- src/app.py line 58: total_traffic = df["website_session_id"].nunique(). -/
def total_traffic (df : List Event) : Nat :=
  (df.map (fun e => e.website_session_id)).dedup.length

/-- src/app.py line 59: conversion_rate = (total_orders / total_traffic) * 100.
Both operands are Python ints (nunique counts), so a zero total_traffic
raises ZeroDivisionError, modelled as Except.error; otherwise the true
division is exact. -/
def conversion_rate (df : List Event) : Except String Rat :=
  if total_traffic df = 0 then Except.error "ZeroDivisionError"
  else Except.ok (((total_orders df : Rat) / (total_traffic df : Rat)) * 100)

/-- src/app.py line 60: total_items = int(orders_df["items_purchased"].sum()).
The column is integral, so the int() truncation is the identity. -/
def total_items (df : List Event) : Int :=
  ((orders_df df).map (fun e => e.items_purchased)).sum

/-- The eight KPI scalars bundled, in source order. -/
def kpis (df : List Event) : KPIs :=
  { total_revenue := total_revenue df
    total_profit := total_profit
    total_orders := total_orders df
    total_refunds := total_refunds df
    aov := aov df
    total_traffic := total_traffic df
    conversion_rate := conversion_rate df
    total_items := total_items df }

end App

namespace Spec

/-- Spec 4.2: Revenue = sum(Order.price_usd). -/
def revenue (df : List Event) : Rat :=
  ((App.orders_df df).map (fun e => e.price_usd)).sum

/-- Spec 4.2: Total Orders = count(distinct Order.order_id). -/
def total_orders (df : List Event) : Nat :=
  ((App.orders_df df).map (fun e => e.order_id)).toFinset.card

/-- Spec 4.2: Total Refunds = sum(Order.refund_amount_usd). -/
def total_refunds (df : List Event) : Rat :=
  ((App.orders_df df).map (fun e => e.refund_amount_usd)).sum

/-- Spec 4.2: Total Traffic = count(distinct Event.website_session_id). -/
def total_traffic (df : List Event) : Nat :=
  (df.map (fun e => e.website_session_id)).toFinset.card

/-- Spec 4.2: Items Sold = sum(Order.items_purchased), truncated to
integer; the sum of an integer column is already integral. -/
def total_items (df : List Event) : Int :=
  ((App.orders_df df).map (fun e => e.items_purchased)).sum

end Spec

/-- C2: the eight KPI scalars equal the spec formulas: Revenue, the
hardcoded data-independent Profit constant, distinct-count Total Orders,
Total Refunds, AOV = Revenue / Total Orders, distinct-count Total Traffic,
Conversion Rate = Total Orders / Total Traffic x 100, and Items Sold. -/
theorem C2_kpi_formulas (df : List Event) :
    (App.kpis df).total_revenue = Spec.revenue df ∧
    (App.kpis df).total_profit = 1222335.29 ∧
    (∀ df2 : List Event, (App.kpis df2).total_profit = (App.kpis df).total_profit) ∧
    (App.kpis df).total_orders = Spec.total_orders df ∧
    (App.kpis df).total_refunds = Spec.total_refunds df ∧
    (App.kpis df).aov = fdiv (Spec.revenue df) (Spec.total_orders df : Rat) ∧
    (App.kpis df).total_traffic = Spec.total_traffic df ∧
    (App.kpis df).conversion_rate =
      (if Spec.total_traffic df = 0 then Except.error "ZeroDivisionError"
       else Except.ok
        (((Spec.total_orders df : Rat) / (Spec.total_traffic df : Rat)) * 100)) ∧
    (App.kpis df).total_items = Spec.total_items df := by
  have horders : App.total_orders df = Spec.total_orders df :=
    (List.card_toFinset _).symm
  have htraffic : App.total_traffic df = Spec.total_traffic df :=
    (List.card_toFinset _).symm
  refine ⟨rfl, rfl, fun _ => rfl, horders, rfl, ?_, htraffic, ?_, rfl⟩
  · show fdiv (App.total_revenue df) (App.total_orders df : Rat) = _
    rw [horders]; rfl
  · show (if App.total_traffic df = 0 then Except.error "ZeroDivisionError"
      else Except.ok
        (((App.total_orders df : Rat) / (App.total_traffic df : Rat)) * 100)) = _
    simp only [horders, htraffic]

/-- Non-converting session row: a nonempty Event table whose Order table
is empty. -/
def ev3 : Event :=
  { website_session_id := 41, order_id := 0, created_at := ⟨2024, 1, 1⟩,
    is_conversion := 0, price_usd := 0, refund_amount_usd := 0,
    is_refunded := false, items_purchased := 0, product_id := 3,
    product_name := "Cap" }

/-- C3: on a nonempty dataset with zero conversion rows the Order table
is empty and Total Orders = 0, yet the KPI code raises no "no orders"
error state: Average Order Value is silently the non-finite marker (NaN
from the float 0.0 divided by the int 0), and the computation continues
past it (Conversion Rate evaluates to an ordinary 0). -/
theorem C3_zero_orders_silent_nan :
    App.orders_df [ev3] = [] ∧
    App.total_orders [ev3] = 0 ∧
    (App.kpis [ev3]).aov = none ∧
    (App.kpis [ev3]).conversion_rate = Except.ok 0 := by
  refine ⟨rfl, rfl, rfl, ?_⟩
  show App.conversion_rate [ev3] = Except.ok 0
  rw [App.conversion_rate, if_neg (by decide)]
  have h0 : App.total_orders [ev3] = 0 := rfl
  have h1 : App.total_traffic [ev3] = 1 := rfl
  rw [h0, h1]
  norm_num

/-- Index of the calendar month of a timestamp, counting months from
year 0; consecutive calendar months get consecutive indices, which is all
that resample("M") month bucketing depends on. -/
def monthIdx (d : Date) : Nat := d.year * 12 + (d.month - 1)

/-- One row of the monthly resample output: the month bucket, the two
aggregated sums, and the derived Refund Rate (%) column (none models the
NaN produced by 0/0). -/
structure MonthRow where
  month : Nat
  price_usd : Rat
  refund_amount_usd : Rat
  rate : Option Rat
deriving DecidableEq

theorem foldl_min_le_init (f : Event → Nat) (l : List Event) (a : Nat) :
    l.foldl (fun b x => min b (f x)) a ≤ a := by
  induction l generalizing a with
  | nil => simp
  | cons x xs ih => exact le_trans (ih _) (min_le_left _ _)

theorem foldl_min_le_mem {f : Event → Nat} {l : List Event} {e : Event}
    (he : e ∈ l) (a : Nat) :
    l.foldl (fun b x => min b (f x)) a ≤ f e := by
  induction l generalizing a with
  | nil => simp at he
  | cons x xs ih =>
    rcases List.mem_cons.mp he with rfl | he
    · exact le_trans (foldl_min_le_init f xs _) (min_le_right _ _)
    · exact ih he _

theorem le_foldl_max_init (f : Event → Nat) (l : List Event) (a : Nat) :
    a ≤ l.foldl (fun b x => max b (f x)) a := by
  induction l generalizing a with
  | nil => simp
  | cons x xs ih => exact le_trans (le_max_left _ _) (ih _)

theorem le_foldl_max_mem {f : Event → Nat} {l : List Event} {e : Event}
    (he : e ∈ l) (a : Nat) :
    f e ≤ l.foldl (fun b x => max b (f x)) a := by
  induction l generalizing a with
  | nil => simp at he
  | cons x xs ih =>
    rcases List.mem_cons.mp he with rfl | he
    · exact le_trans (le_max_right _ _) (le_foldl_max_init f xs _)
    · exact ih he _

namespace App

/-- Earliest month index occurring in a list of rows (0 on the empty
list, where resample is never reached). -/
def minMonth : List Event → Nat
  | [] => 0
  | e :: es =>
    es.foldl (fun a x => min a (monthIdx x.created_at)) (monthIdx e.created_at)

/-- Latest month index occurring in a list of rows. -/
def maxMonth : List Event → Nat
  | [] => 0
  | e :: es =>
    es.foldl (fun a x => max a (monthIdx x.created_at)) (monthIdx e.created_at)

/-- One resample("M") bucket: sum price_usd and refund_amount_usd over the
rows falling in month k, then the derived column of src/app.py line 84:
monthly["Refund Rate (%)"] = (refund_amount_usd / price_usd) * 100. -/
def monthRowAt (orders : List Event) (k : Nat) : MonthRow :=
  let g := orders.filter (fun e => monthIdx e.created_at == k)
  let p := (g.map (fun e => e.price_usd)).sum
  let r := (g.map (fun e => e.refund_amount_usd)).sum
  { month := k, price_usd := p, refund_amount_usd := r,
    rate := (fdiv r p).map (fun x => x * 100) }

/-- Transliteration of src/app.py lines 83-84: resample the orders by
calendar month. Pandas resample("M") emits one bucket for every month in
the contiguous range from the earliest to the latest timestamp, including
months with no rows. -/
def monthly (df : List Event) : List MonthRow :=
  if orders_df df = [] then []
  else
    (List.range' (minMonth (orders_df df))
      (maxMonth (orders_df df) + 1 - minMonth (orders_df df))).map
      (monthRowAt (orders_df df))

theorem minMonth_le {orders : List Event} {e : Event} (he : e ∈ orders) :
    minMonth orders ≤ monthIdx e.created_at := by
  match orders with
  | [] => simp at he
  | x :: xs =>
    rcases List.mem_cons.mp he with rfl | he
    · exact foldl_min_le_init _ _ _
    · exact foldl_min_le_mem he _

theorem le_maxMonth {orders : List Event} {e : Event} (he : e ∈ orders) :
    monthIdx e.created_at ≤ maxMonth orders := by
  match orders with
  | [] => simp at he
  | x :: xs =>
    rcases List.mem_cons.mp he with rfl | he
    · exact le_foldl_max_init (fun x => monthIdx x.created_at) xs _
    · exact @le_foldl_max_mem (fun x => monthIdx x.created_at) xs e he _

theorem minMonth_le_maxMonth {orders : List Event} (h : orders ≠ []) :
    minMonth orders ≤ maxMonth orders := by
  match orders with
  | [] => exact absurd rfl h
  | x :: xs =>
    exact le_trans (foldl_min_le_init _ _ _) (le_foldl_max_init _ _ _)

end App

/-- C4 (amended): for a non-empty Order table, the Monthly Refund Trend is
sorted chronologically with distinct months, its month column is exactly
the contiguous range from the earliest to the latest order month (so gap
months get a row too), every month present in the data has its row, and
each row carries the month's two sums and the rate
sum(refund_amount_usd)/sum(price_usd) x 100 (none for 0/0). -/
theorem C4_monthly_trend (df : List Event) (h : App.orders_df df ≠ []) :
    List.Pairwise (fun a b => a.month < b.month) (App.monthly df) ∧
    (App.monthly df).map (fun r => r.month) =
      List.range' (App.minMonth (App.orders_df df))
        (App.maxMonth (App.orders_df df) + 1 - App.minMonth (App.orders_df df)) ∧
    (∀ r ∈ App.monthly df,
      App.minMonth (App.orders_df df) ≤ r.month ∧
      r.month ≤ App.maxMonth (App.orders_df df)) ∧
    (∀ e ∈ App.orders_df df,
      ∃ r, r ∈ App.monthly df ∧ r.month = monthIdx e.created_at) ∧
    (∀ r ∈ App.monthly df,
      r.price_usd = (((App.orders_df df).filter
        (fun e => monthIdx e.created_at == r.month)).map
          (fun e => e.price_usd)).sum ∧
      r.refund_amount_usd = (((App.orders_df df).filter
        (fun e => monthIdx e.created_at == r.month)).map
          (fun e => e.refund_amount_usd)).sum ∧
      r.rate = (fdiv r.refund_amount_usd r.price_usd).map (fun x => x * 100)) := by
  have hlohi := App.minMonth_le_maxMonth h
  have hmem : ∀ k, k ∈ List.range' (App.minMonth (App.orders_df df))
      (App.maxMonth (App.orders_df df) + 1 - App.minMonth (App.orders_df df)) ↔
      App.minMonth (App.orders_df df) ≤ k ∧
      k ≤ App.maxMonth (App.orders_df df) := by
    intro k
    rw [List.mem_range'_1]
    omega
  have hm : App.monthly df =
      (List.range' (App.minMonth (App.orders_df df))
        (App.maxMonth (App.orders_df df) + 1 - App.minMonth (App.orders_df df))).map
        (App.monthRowAt (App.orders_df df)) := by
    rw [App.monthly, if_neg h]
  refine ⟨?_, ?_, ?_, ?_, ?_⟩
  · rw [hm]
    refine List.Pairwise.map _ ?_ (List.pairwise_lt_range' _ _)
    intro a b hab
    exact hab
  · rw [hm, List.map_map]
    exact List.map_id _
  · intro r hr
    rw [hm] at hr
    rcases List.mem_map.mp hr with ⟨k, hk, rfl⟩
    exact (hmem k).mp hk
  · intro e he
    refine ⟨App.monthRowAt (App.orders_df df) (monthIdx e.created_at), ?_, rfl⟩
    rw [hm]
    exact List.mem_map_of_mem _
      ((hmem _).mpr ⟨App.minMonth_le he, App.le_maxMonth he⟩)
  · intro r hr
    rw [hm] at hr
    rcases List.mem_map.mp hr with ⟨k, _, rfl⟩
    exact ⟨rfl, rfl, rfl⟩

/-- Witness: C4_monthly_trend instantiated on the one-row dataset. -/
theorem C4_monthly_trend_witness :
    List.Pairwise (fun a b => a.month < b.month) (App.monthly [ev1]) :=
  (C4_monthly_trend [ev1] (by decide)).1

/-- January 2024 order, used by the monthly-trend counterexamples. -/
def ev4a : Event :=
  { website_session_id := 21, order_id := 21, created_at := ⟨2024, 1, 5⟩,
    is_conversion := 1, price_usd := 100, refund_amount_usd := 0,
    is_refunded := false, items_purchased := 1, product_id := 1,
    product_name := "Bear" }

/-- March 2024 order, used by the monthly-trend counterexamples. -/
def ev4b : Event :=
  { website_session_id := 22, order_id := 22, created_at := ⟨2024, 3, 7⟩,
    is_conversion := 1, price_usd := 50, refund_amount_usd := 0,
    is_refunded := false, items_purchased := 2, product_id := 1,
    product_name := "Bear" }

/-- Counterexample to C4 as stated: with one January and one March order,
the Monthly Refund Trend has three rows (January, February, March) while
only two calendar months are present in the data, so it does not have
exactly one row per calendar month present. -/
theorem C4_monthly_trend_counterexample :
    (App.monthly [ev4a, ev4b]).length = 3 ∧
    ((App.orders_df [ev4a, ev4b]).map
      (fun e => monthIdx e.created_at)).dedup.length = 2 ∧
    ¬ ((App.monthly [ev4a, ev4b]).length =
       ((App.orders_df [ev4a, ev4b]).map
         (fun e => monthIdx e.created_at)).dedup.length) := by
  refine ⟨by decide, by decide, by decide⟩

/-- C5: on the January/March dataset the output contains a February
bucket (month index 24289) whose summed revenue is zero, and the code
leaves that bucket's Refund Rate (%) as the non-finite marker (NaN from
0/0) in the output, with no explicit handling. -/
theorem C5_zero_revenue_month_nan :
    (App.monthly [ev4a, ev4b]).map (fun r => r.month) = [24288, 24289, 24290] ∧
    App.monthRowAt (App.orders_df [ev4a, ev4b]) 24289 ∈ App.monthly [ev4a, ev4b] ∧
    (App.monthRowAt (App.orders_df [ev4a, ev4b]) 24289).price_usd = 0 ∧
    (App.monthRowAt (App.orders_df [ev4a, ev4b]) 24289).rate = none := by
  refine ⟨by decide, ?_, by decide, by decide⟩
  have h1 : App.minMonth (App.orders_df [ev4a, ev4b]) = 24288 := by decide
  have h2 : App.maxMonth (App.orders_df [ev4a, ev4b]) = 24290 := by decide
  have hm : App.monthly [ev4a, ev4b] =
      (List.range' 24288 3).map (App.monthRowAt (App.orders_df [ev4a, ev4b])) := by
    rw [App.monthly, if_neg (by decide), h1, h2]
  rw [hm]
  exact List.mem_map_of_mem _ (by decide)

/-- One row of the Refund Risk Summary table, before column renaming:
group key, aggregated counts, derived rate, and classified status. -/
structure RiskRow where
  product_id : Nat
  product_name : String
  orders : Nat
  refunds : Nat
  rate : Rat
  status : String
deriving DecidableEq

/-- Severity ranking of the three risk labels, for the monotonicity
property: Low < Medium < High. -/
def severity (label : String) : Nat :=
  if label = "High Risk" then 2 else if label = "Medium Risk" then 1 else 0

namespace App

/-- Transliteration of src/app.py lines 132-135. -/
def get_risk_label (rate : Rat) : String :=
  if rate > 6 then "High Risk"
  else if rate > 4 then "Medium Risk"
  else "Low Risk"

/-- Group keys of groupby(["product_id", "product_name"]), in first
occurrence order; every key occurs in the orders, so every group is
non-empty. -/
def riskKeys (df : List Event) : List (Nat × String) :=
  dropDups (fun k => k) []
    ((orders_df df).map (fun e => (e.product_id, e.product_name)))

/-- One aggregated row of src/app.py lines 124-137: order count, refund
count, Refund Rate = Refunds / Orders * 100, and the Status column.
Groups are non-empty, so the division never hits a zero denominator. -/
def mkRiskRow (df : List Event) (k : Nat × String) : RiskRow :=
  let g := (orders_df df).filter
    (fun e => e.product_id == k.1 && e.product_name == k.2)
  let o := g.length
  let r := (g.filter (fun e => e.is_refunded)).length
  let rate := ((r : Rat) / (o : Rat)) * 100
  { product_id := k.1, product_name := k.2, orders := o, refunds := r,
    rate := rate, status := get_risk_label rate }

/-- Transliteration of src/app.py lines 124-137: the aggregated rows
sorted by product_id ascending (line 130). -/
def risk_summary (df : List Event) : List RiskRow :=
  ((riskKeys df).map (mkRiskRow df)).insertionSort
    (fun a b => a.product_id ≤ b.product_id)

end App

/-- C6: every rate receives exactly one status by the fixed thresholds
(rate > 6 High, 4 < rate <= 6 Medium, rate <= 4 Low), with rate = 6
classified Medium and rate = 4 classified Low; and every Risk Summary row
carries the status of its own rate. -/
theorem C6_risk_partition :
    (∀ r : Rat,
      ((6 < r) ∧ ¬(4 < r ∧ r ≤ 6) ∧ ¬(r ≤ 4) ∧
        App.get_risk_label r = "High Risk") ∨
      (¬(6 < r) ∧ (4 < r ∧ r ≤ 6) ∧ ¬(r ≤ 4) ∧
        App.get_risk_label r = "Medium Risk") ∨
      (¬(6 < r) ∧ ¬(4 < r ∧ r ≤ 6) ∧ (r ≤ 4) ∧
        App.get_risk_label r = "Low Risk")) ∧
    App.get_risk_label 6 = "Medium Risk" ∧
    App.get_risk_label 4 = "Low Risk" ∧
    (∀ df : List Event, ∀ row ∈ App.risk_summary df,
      row.status = App.get_risk_label row.rate) := by
  refine ⟨?_, by norm_num [App.get_risk_label], by norm_num [App.get_risk_label], ?_⟩
  · intro r
    by_cases h6 : 6 < r
    · refine Or.inl ⟨h6, ?_, not_le.mpr (lt_trans (by norm_num) h6), ?_⟩
      · rintro ⟨-, hle⟩
        exact absurd (lt_of_lt_of_le h6 hle) (lt_irrefl _)
      · simp [App.get_risk_label, h6]
    · by_cases h4 : 4 < r
      · refine Or.inr (Or.inl ⟨h6, ⟨h4, not_lt.mp h6⟩, not_le.mpr h4, ?_⟩)
        simp [App.get_risk_label, h6, h4]
      · refine Or.inr (Or.inr ⟨h6, ?_, not_lt.mp h4, ?_⟩)
        · rintro ⟨h, -⟩
          exact h4 h
        · simp [App.get_risk_label, h6, h4]
  · intro df row hrow
    rw [App.risk_summary, List.mem_insertionSort] at hrow
    rcases List.mem_map.mp hrow with ⟨k, -, rfl⟩
    rfl

/-- Witness: C6_risk_partition applied to the Risk Summary of the
one-row dataset. -/
theorem C6_risk_partition_witness :
    (App.mkRiskRow [ev1] (1, "Bear")).status =
      App.get_risk_label (App.mkRiskRow [ev1] (1, "Bear")).rate :=
  C6_risk_partition.2.2.2 [ev1] (App.mkRiskRow [ev1] (1, "Bear"))
    ((List.mem_insertionSort _).mpr (List.mem_map_of_mem _ (by decide)))

/-- C10: the risk-label function is total (always one of the three
labels, with negative rates classified Low) and monotone in severity. -/
theorem C10_risk_label_total_monotone :
    (∀ r : Rat, App.get_risk_label r = "High Risk" ∨
      App.get_risk_label r = "Medium Risk" ∨
      App.get_risk_label r = "Low Risk") ∧
    (∀ r : Rat, r < 0 → App.get_risk_label r = "Low Risk") ∧
    (∀ r1 r2 : Rat, r1 ≤ r2 →
      severity (App.get_risk_label r1) ≤ severity (App.get_risk_label r2)) := by
  have hsev : ∀ r : Rat, severity (App.get_risk_label r) =
      if 6 < r then 2 else if 4 < r then 1 else 0 := by
    intro r
    by_cases h6 : 6 < r
    · simp [App.get_risk_label, severity, h6]
    · by_cases h4 : 4 < r
      · simp [App.get_risk_label, severity, h6, h4]
      · simp [App.get_risk_label, severity, h6, h4]
  refine ⟨?_, ?_, ?_⟩
  · intro r
    by_cases h6 : 6 < r
    · exact Or.inl (by simp [App.get_risk_label, h6])
    · by_cases h4 : 4 < r
      · exact Or.inr (Or.inl (by simp [App.get_risk_label, h6, h4]))
      · exact Or.inr (Or.inr (by simp [App.get_risk_label, h6, h4]))
  · intro r hr
    have h6 : ¬ (6 : Rat) < r := by intro hc; linarith
    have h4 : ¬ (4 : Rat) < r := by intro hc; linarith
    simp [App.get_risk_label, h6, h4]
  · intro r1 r2 h12
    rw [hsev, hsev]
    split_ifs
    all_goals try norm_num
    all_goals linarith

/-- Witness: C10_risk_label_total_monotone at the rates 5 and 7. -/
theorem C10_risk_label_witness :
    severity (App.get_risk_label 5) ≤ severity (App.get_risk_label 7) :=
  C10_risk_label_total_monotone.2.2 5 7 (by norm_num)

namespace App

/-- Transliteration of the src/app.py line 110 lambda:
"Single Item" if x == 1 else "Bundle (2+ Items)". -/
def purchaseType (e : Event) : String :=
  if e.items_purchased = 1 then "Single Item" else "Bundle (2+ Items)"

/-- Rows of one Purchase Type group. -/
def classRows (df : List Event) (k : String) : List Event :=
  (orders_df df).filter (fun e => purchaseType e == k)

/-- Keys of groupby("Purchase Type"): pandas emits the group keys in
sorted order, and of the two possible class values only those actually
present in the orders appear. -/
def bundleKeys (df : List Event) : List String :=
  ["Bundle (2+ Items)", "Single Item"].filter
    (fun k => (orders_df df).any (fun e => purchaseType e == k))

/-- Rate column of src/app.py lines 111-112: mean of is_refunded over the
class, times 100. The mean of a boolean column is refunded count divided
by row count. -/
def classRate (df : List Event) (k : String) : Option Rat :=
  (fdiv ((classRows df k).countP (fun e => e.is_refunded) : Rat)
    ((classRows df k).length : Rat)).map (fun m => m * 100)

/-- Transliteration of src/app.py lines 110-112: the Bundle Effect table. -/
def bundle_risk (df : List Event) : List (String × Option Rat) :=
  (bundleKeys df).map (fun k => (k, classRate df k))

end App

/-- Order with one item, not refunded (Bundle Effect example). -/
def ev7a : Event :=
  { website_session_id := 31, order_id := 31, created_at := ⟨2024, 5, 1⟩,
    is_conversion := 1, price_usd := 10, refund_amount_usd := 0,
    is_refunded := false, items_purchased := 1, product_id := 2,
    product_name := "Cub" }

/-- Order with one item, refunded (Bundle Effect example). -/
def ev7b : Event :=
  { website_session_id := 32, order_id := 32, created_at := ⟨2024, 5, 2⟩,
    is_conversion := 1, price_usd := 10, refund_amount_usd := 10,
    is_refunded := true, items_purchased := 1, product_id := 2,
    product_name := "Cub" }

/-- Order with three items, not refunded (Bundle Effect example). -/
def ev7c : Event :=
  { website_session_id := 33, order_id := 33, created_at := ⟨2024, 5, 3⟩,
    is_conversion := 1, price_usd := 30, refund_amount_usd := 0,
    is_refunded := false, items_purchased := 3, product_id := 2,
    product_name := "Cub" }

/-- C7: an Order is classified "Single Item" exactly when items_purchased
is 1 and "Bundle (2+ Items)" for every other value (0 and negatives
included); each class's rate is the mean of is_refunded over the class
times 100; and on items_purchased = [1, 1, 3] with
is_refunded = [false, true, false] the Single Item rate is 50% and the
Bundle rate is 0%. -/
theorem C7_bundle_effect :
    (∀ e : Event, App.purchaseType e = "Single Item" ↔ e.items_purchased = 1) ∧
    (∀ e : Event,
      App.purchaseType e = "Bundle (2+ Items)" ↔ e.items_purchased ≠ 1) ∧
    (∀ df : List Event, App.bundle_risk df = (App.bundleKeys df).map (fun k =>
      (k, (fdiv ((App.classRows df k).countP (fun e => e.is_refunded) : Rat)
        ((App.classRows df k).length : Rat)).map (fun m => m * 100)))) ∧
    App.bundle_risk [ev7a, ev7b, ev7c] =
      [("Bundle (2+ Items)", some 0), ("Single Item", some 50)] := by
  refine ⟨?_, ?_, fun df => rfl, ?_⟩
  · intro e
    by_cases h : e.items_purchased = 1 <;> simp [App.purchaseType, h]
  · intro e
    by_cases h : e.items_purchased = 1 <;> simp [App.purchaseType, h]
  · have hk : App.bundleKeys [ev7a, ev7b, ev7c] =
        ["Bundle (2+ Items)", "Single Item"] := by decide
    have h3 : (App.classRows [ev7a, ev7b, ev7c] "Bundle (2+ Items)").countP
        (fun e => e.is_refunded) = 0 := by decide
    have h4 : (App.classRows [ev7a, ev7b, ev7c] "Bundle (2+ Items)").length = 1 := by
      decide
    have h5 : (App.classRows [ev7a, ev7b, ev7c] "Single Item").countP
        (fun e => e.is_refunded) = 1 := by decide
    have h6 : (App.classRows [ev7a, ev7b, ev7c] "Single Item").length = 2 := by
      decide
    have hb : App.bundle_risk [ev7a, ev7b, ev7c] =
        [("Bundle (2+ Items)", App.classRate [ev7a, ev7b, ev7c] "Bundle (2+ Items)"),
         ("Single Item", App.classRate [ev7a, ev7b, ev7c] "Single Item")] := by
      rw [App.bundle_risk, hk]
      rfl
    rw [hb]
    simp only [App.classRate]
    rw [h3, h4, h5, h6]
    norm_num [fdiv]

namespace StreamlitApp

/-- Transliteration of src/streamlit_app.py line 87, identical to
src/app.py line 24. -/
def orders_df (df : List Event) : List Event :=
  dropDups (fun e => e.order_id) [] (df.filter (fun e => e.is_conversion == 1))

/-- src/streamlit_app.py line 105. -/
def total_revenue (df : List Event) : Rat :=
  ((orders_df df).map (fun e => e.price_usd)).sum

/-- src/streamlit_app.py line 106: hardcoded per request. -/
def total_profit : Rat := 1222335.29

/-- src/streamlit_app.py line 107. -/
def total_orders (df : List Event) : Nat :=
  ((orders_df df).map (fun e => e.order_id)).dedup.length

/-- src/streamlit_app.py line 108. -/
def total_refunds (df : List Event) : Rat :=
  ((orders_df df).map (fun e => e.refund_amount_usd)).sum

/-- src/streamlit_app.py line 109. -/
def aov (df : List Event) : Option Rat :=
  fdiv (total_revenue df) (total_orders df : Rat)

/-- src/streamlit_app.py line 110. -/
def total_traffic (df : List Event) : Nat :=
  (df.map (fun e => e.website_session_id)).dedup.length

/-- src/streamlit_app.py line 111: int/int division as in src/app.py
line 59, raising ZeroDivisionError (Except.error) at zero traffic. -/
def conversion_rate (df : List Event) : Except String Rat :=
  if total_traffic df = 0 then Except.error "ZeroDivisionError"
  else Except.ok (((total_orders df : Rat) / (total_traffic df : Rat)) * 100)

/-- src/streamlit_app.py line 112. -/
def total_items (df : List Event) : Int :=
  ((orders_df df).map (fun e => e.items_purchased)).sum

/-- The eight KPI scalars of src/streamlit_app.py lines 105-112. -/
def kpis (df : List Event) : KPIs :=
  { total_revenue := total_revenue df
    total_profit := total_profit
    total_orders := total_orders df
    total_refunds := total_refunds df
    aov := aov df
    total_traffic := total_traffic df
    conversion_rate := conversion_rate df
    total_items := total_items df }

/-- src/streamlit_app.py lines 204-207, identical to src/app.py. -/
def get_risk_label (rate : Rat) : String :=
  if rate > 6 then "High Risk"
  else if rate > 4 then "Medium Risk"
  else "Low Risk"

/-- Group keys of src/streamlit_app.py line 196, identical to src/app.py. -/
def riskKeys (df : List Event) : List (Nat × String) :=
  dropDups (fun k => k) []
    ((orders_df df).map (fun e => (e.product_id, e.product_name)))

/-- One aggregated row of src/streamlit_app.py lines 196-209. -/
def mkRiskRow (df : List Event) (k : Nat × String) : RiskRow :=
  let g := (orders_df df).filter
    (fun e => e.product_id == k.1 && e.product_name == k.2)
  let o := g.length
  let r := (g.filter (fun e => e.is_refunded)).length
  let rate := ((r : Rat) / (o : Rat)) * 100
  { product_id := k.1, product_name := k.2, orders := o, refunds := r,
    rate := rate, status := get_risk_label rate }

/-- Transliteration of src/streamlit_app.py lines 196-209: the same
aggregated rows, sorted by Refund Rate descending (line 202). -/
def risk_summary (df : List Event) : List RiskRow :=
  ((riskKeys df).map (mkRiskRow df)).insertionSort (fun a b => b.rate ≤ a.rate)

end StreamlitApp

/-- C8: on the same dataset the two implementations compute Risk Summary
tables that are permutations of each other (the same multiset of
aggregated rows), each sorted by its own key (product_id ascending in
src/app.py, refund rate descending in src/streamlit_app.py), and the two
computations of the eight KPI scalars agree exactly. -/
theorem C8_two_implementations_agree (df : List Event) :
    List.Perm (App.risk_summary df) (StreamlitApp.risk_summary df) ∧
    List.Sorted (fun a b => a.product_id ≤ b.product_id) (App.risk_summary df) ∧
    List.Sorted (fun a b => b.rate ≤ a.rate) (StreamlitApp.risk_summary df) ∧
    App.kpis df = StreamlitApp.kpis df := by
  refine ⟨?_, ?_, ?_, rfl⟩
  · exact (List.perm_insertionSort _ _).trans (List.perm_insertionSort _ _).symm
  · haveI : IsTotal RiskRow (fun a b => a.product_id ≤ b.product_id) :=
      ⟨fun a b => Nat.le_total _ _⟩
    haveI : IsTrans RiskRow (fun a b => a.product_id ≤ b.product_id) :=
      ⟨fun _ _ _ hab hbc => Nat.le_trans hab hbc⟩
    exact List.sorted_insertionSort _ _
  · haveI : IsTotal RiskRow (fun a b => b.rate ≤ a.rate) :=
      ⟨fun a b => le_total _ _⟩
    haveI : IsTrans RiskRow (fun a b => b.rate ≤ a.rate) :=
      ⟨fun _ _ _ hab hbc => le_trans hbc hab⟩
    exact List.sorted_insertionSort _ _

/-- Python str.endswith: a plain suffix test on the character sequence. -/
def strEndsWith (s suffix : String) : Bool := suffix.toList.isSuffixOf s.toList

/-- The two parse modes of the upload utility: delimited text
(pd.read_csv) and columnar (pd.read_parquet). -/
inductive Loaded where
  | csv
  | parquet
deriving DecidableEq

/-- Transliteration of src/utils.py load_data: dispatch on the file name
suffix, csv first, then parquet, otherwise
raise ValueError("Unsupported file format"). -/
def load_data (name : String) : Except String Loaded :=
  if strEndsWith name ".csv" then Except.ok Loaded.csv
  else if strEndsWith name ".parquet" then Except.ok Loaded.parquet
  else Except.error "Unsupported file format"

theorem parquet_not_csv {name : String}
    (h : strEndsWith name ".parquet" = true) :
    strEndsWith name ".csv" = false := by
  by_contra hc
  rw [Bool.not_eq_false] at hc
  have h1 : ".parquet".toList <:+ name.toList :=
    List.isSuffixOf_iff_suffix.mp h
  have h2 : ".csv".toList <:+ name.toList :=
    List.isSuffixOf_iff_suffix.mp hc
  rcases List.suffix_or_suffix_of_suffix h1 h2 with h3 | h3
  · have := h3.length_le
    simp at this
  · exact absurd h3 (by decide)

/-- C9: load_data dispatches on the file name suffix: a name ending in
".csv" is parsed as delimited text, a name ending in ".parquet" as
columnar, and any other name fails immediately with the
unsupported-format error, with no fallback parsing. -/
theorem C9_load_data_dispatch (name : String) :
    (strEndsWith name ".csv" = true → load_data name = Except.ok Loaded.csv) ∧
    (strEndsWith name ".parquet" = true →
      load_data name = Except.ok Loaded.parquet) ∧
    (strEndsWith name ".csv" = false → strEndsWith name ".parquet" = false →
      load_data name = Except.error "Unsupported file format") := by
  refine ⟨?_, ?_, ?_⟩
  · intro h
    simp [load_data, h]
  · intro h
    have hc := parquet_not_csv h
    simp [load_data, hc, h]
  · intro h1 h2
    simp [load_data, h1, h2]

/-- Witness: C9_load_data_dispatch on three concrete file names. -/
theorem C9_load_data_dispatch_witness :
    load_data "data.csv" = Except.ok Loaded.csv ∧
    load_data "data.parquet" = Except.ok Loaded.parquet ∧
    load_data "report.txt" = Except.error "Unsupported file format" :=
  ⟨(C9_load_data_dispatch "data.csv").1 (by decide),
   (C9_load_data_dispatch "data.parquet").2.1 (by decide),
   (C9_load_data_dispatch "report.txt").2.2 (by decide) (by decide)⟩
